import Mathlib

/-!
# Market-slug build task (`pkg/builder/exector/build_from_market_slug.go`)

A shallow embedding of `MarketSlugItem` and its methods `NewMarketSlugItem`,
`Run`, `CreateUpgradeTaskBody` and `UpdateVersionInfo`.

The Go code talks to collaborators that live outside the file: the JSON
decoder, the event manager and its loggers, the SFTP client, the local copy
routine, `os.Chown` / `os.Remove`, the version-record DAO and the API handler
that triggers a rolling upgrade.  They are taken as parameters (`Collab`):
each one is an arbitrary function of its arguments and of the current state of
the outside world, returning its Go result and the next state of the world.
Every call the code makes is also appended, with its arguments and its result,
to a chronological trace, so that statements such as "the deployment trigger
is never invoked" are statements about that trace.

Go's `error` is `Option Error` (`none` is `nil`); a Go `(T, error)` result is
`Except Error T`.
-/

namespace Rainbond

/-- A Go `error` value, observed through its `Error()` text. -/
structure Error where
  text : String
  deriving DecidableEq, Repr

/-- The Go `map[string]string` literals handed to the event logger, as the
list of their key/value pairs in source order. -/
abbrev Tags := List (String × String)

/-- The anonymous struct type of `MarketSlugItem.SlugInfo`. -/
structure SlugInfo where
  SlugPath : String
  FTPHost : String
  FTPPort : String
  FTPUser : String
  FTPPassword : String
  deriving DecidableEq, Repr

/-- The Go struct `MarketSlugItem`; `L` is the type of `event.Logger`
handles. -/
structure MarketSlugItem (L : Type) where
  TenantName : String
  ServiceAlias : String
  Logger : L
  EventID : String
  Operator : String
  DeployVersion : String
  TenantID : String
  ServiceID : String
  TGZPath : String
  SlugInfo : SlugInfo

/-- The fields of `dbmodel.VersionInfo` that this file reads or writes; the
declaration of the struct is outside the file, so all its remaining fields are
carried together in `rest`, of an arbitrary type `ρ`. -/
structure VersionInfo (ρ : Type) where
  DeliveredType : String
  DeliveredPath : String
  EventID : String
  FinalStatus : String
  rest : ρ

/-- The fields of `model.RollingUpgradeTaskBody` set by
`CreateUpgradeTaskBody`. -/
structure RollingUpgradeTaskBody where
  TenantID : String
  ServiceID : String
  CurrentDeployVersion : String
  NewDeployVersion : String
  EventID : String
  deriving DecidableEq, Repr

/-- One call made by the code to a collaborator, with its arguments and, where
the callee returns something, its result.  Calls on a logger record the logger
handle; the SFTP-client handle is not recorded. -/
inductive Effect (L ρ : Type) where
  | NewSFTPClient (user password host port : String) (err : Option Error)
  | DownloadFile (src dst : String) (logger : L) (err : Option Error)
  | Close
  | CopyFileWithProgress (src dst : String) (logger : L) (err : Option Error)
  | Chown (name : String) (uid gid : Int) (err : Option Error)
  | Remove (name : String) (err : Option Error)
  | LoggerError (logger : L) (msg : String) (tags : Tags)
  | LoggerInfo (logger : L) (msg : String) (tags : Tags)
  | LogrusErrorf (msg : String)
  | GetVersionByDeployVersion (deployVersion serviceID : String)
      (res : Except Error (VersionInfo ρ))
  | UpdateModel (version : VersionInfo ρ) (err : Option Error)
  | UpgradeService (tenantName serviceAlias : String)
      (body : RollingUpgradeTaskBody) (err : Option Error)

/-- The collaborators of the file.  `σ` is the state of the outside world
(file system, database, cluster, event log), `C` the type of SFTP client
handles, `L` the type of logger handles, `ρ` the remaining fields of a version
record. -/
structure Collab (σ C L ρ : Type) where
  /-- The call `ffjson.Unmarshal(in, &msi)` on a zero-valued item. -/
  Unmarshal : List UInt8 → Except Error (MarketSlugItem L)
  /-- The call `event.GetManager().GetLogger(eventID)`. -/
  GetLogger : String → L
  /-- The call `sources.NewSFTPClient(user, password, host, port)`. -/
  NewSFTPClient : String → String → String → String → σ → Except Error C × σ
  /-- The call `sFTPClient.DownloadFile(src, dst, logger)`. -/
  DownloadFile : C → String → String → L → σ → Option Error × σ
  /-- The call `sFTPClient.Close()`. -/
  Close : C → σ → σ
  /-- The call `sources.CopyFileWithProgress(src, dst, logger)`. -/
  CopyFileWithProgress : String → String → L → σ → Option Error × σ
  /-- The call `os.Chown(name, uid, gid)`. -/
  Chown : String → Int → Int → σ → Option Error × σ
  /-- The call `os.Remove(name)`. -/
  Remove : String → σ → Option Error × σ
  /-- The call `logger.Error(msg, tags)`. -/
  LoggerError : L → String → Tags → σ → σ
  /-- The call `logger.Info(msg, tags)`. -/
  LoggerInfo : L → String → Tags → σ → σ
  /-- The call `logrus.Errorf(...)`, on the formatted message. -/
  LogrusErrorf : String → σ → σ
  /-- The call `db.GetManager().VersionInfoDao().GetVersionByDeployVersion`. -/
  GetVersionByDeployVersion : String → String → σ → Except Error (VersionInfo ρ) × σ
  /-- The call `db.GetManager().VersionInfoDao().UpdateModel(version)`. -/
  UpdateModel : VersionInfo ρ → σ → Option Error × σ
  /-- The call `apiHandler.UpgradeService(tenantName, serviceAlias, body)`. -/
  UpgradeService : String → String → RollingUpgradeTaskBody → σ → Option Error × σ

/-- The state threaded through an execution: the outside world and the calls
made so far, oldest first. -/
structure St (σ L ρ : Type) where
  world : σ
  trace : List (Effect L ρ)

section Calls

variable {σ C L ρ : Type}

/-- Performs `sources.NewSFTPClient` and records it. -/
def callNewSFTPClient (c : Collab σ C L ρ) (user password host port : String)
    (s : St σ L ρ) : Except Error C × St σ L ρ :=
  let r := c.NewSFTPClient user password host port s.world
  (r.1, { world := r.2,
          trace := s.trace ++ [Effect.NewSFTPClient user password host port
            (match r.1 with | .error e => some e | .ok _ => none)] })

/-- Performs `sFTPClient.DownloadFile` and records it. -/
def callDownloadFile (c : Collab σ C L ρ) (client : C) (src dst : String) (l : L)
    (s : St σ L ρ) : Option Error × St σ L ρ :=
  let r := c.DownloadFile client src dst l s.world
  (r.1, { world := r.2, trace := s.trace ++ [Effect.DownloadFile src dst l r.1] })

/-- Performs `sFTPClient.Close` and records it. -/
def callClose (c : Collab σ C L ρ) (client : C) (s : St σ L ρ) : St σ L ρ :=
  { world := c.Close client s.world, trace := s.trace ++ [Effect.Close] }

/-- Performs `sources.CopyFileWithProgress` and records it. -/
def callCopyFileWithProgress (c : Collab σ C L ρ) (src dst : String) (l : L)
    (s : St σ L ρ) : Option Error × St σ L ρ :=
  let r := c.CopyFileWithProgress src dst l s.world
  (r.1, { world := r.2, trace := s.trace ++ [Effect.CopyFileWithProgress src dst l r.1] })

/-- Performs `os.Chown` and records it. -/
def callChown (c : Collab σ C L ρ) (name : String) (uid gid : Int)
    (s : St σ L ρ) : Option Error × St σ L ρ :=
  let r := c.Chown name uid gid s.world
  (r.1, { world := r.2, trace := s.trace ++ [Effect.Chown name uid gid r.1] })

/-- Performs `os.Remove` and records it. -/
def callRemove (c : Collab σ C L ρ) (name : String)
    (s : St σ L ρ) : Option Error × St σ L ρ :=
  let r := c.Remove name s.world
  (r.1, { world := r.2, trace := s.trace ++ [Effect.Remove name r.1] })

/-- Performs `logger.Error` and records it. -/
def callLoggerError (c : Collab σ C L ρ) (l : L) (msg : String) (tags : Tags)
    (s : St σ L ρ) : St σ L ρ :=
  { world := c.LoggerError l msg tags s.world,
    trace := s.trace ++ [Effect.LoggerError l msg tags] }

/-- Performs `logger.Info` and records it. -/
def callLoggerInfo (c : Collab σ C L ρ) (l : L) (msg : String) (tags : Tags)
    (s : St σ L ρ) : St σ L ρ :=
  { world := c.LoggerInfo l msg tags s.world,
    trace := s.trace ++ [Effect.LoggerInfo l msg tags] }

/-- Performs `logrus.Errorf` and records it. -/
def callLogrusErrorf (c : Collab σ C L ρ) (msg : String) (s : St σ L ρ) : St σ L ρ :=
  { world := c.LogrusErrorf msg s.world, trace := s.trace ++ [Effect.LogrusErrorf msg] }

/-- Performs `GetVersionByDeployVersion` and records it. -/
def callGetVersionByDeployVersion (c : Collab σ C L ρ) (deployVersion serviceID : String)
    (s : St σ L ρ) : Except Error (VersionInfo ρ) × St σ L ρ :=
  let r := c.GetVersionByDeployVersion deployVersion serviceID s.world
  (r.1, { world := r.2,
          trace := s.trace ++ [Effect.GetVersionByDeployVersion deployVersion serviceID r.1] })

/-- Performs `UpdateModel` and records it. -/
def callUpdateModel (c : Collab σ C L ρ) (version : VersionInfo ρ)
    (s : St σ L ρ) : Option Error × St σ L ρ :=
  let r := c.UpdateModel version s.world
  (r.1, { world := r.2, trace := s.trace ++ [Effect.UpdateModel version r.1] })

/-- Performs `apiHandler.UpgradeService` and records it. -/
def callUpgradeService (c : Collab σ C L ρ) (tenantName serviceAlias : String)
    (body : RollingUpgradeTaskBody) (s : St σ L ρ) : Option Error × St σ L ρ :=
  let r := c.UpgradeService tenantName serviceAlias body s.world
  (r.1, { world := r.2,
          trace := s.trace ++ [Effect.UpgradeService tenantName serviceAlias body r.1] })

end Calls

section Program

variable {σ C L ρ : Type}

/-- The call `fmt.Sprintf("/grdata/build/tenant/%s/slug/%s/%s.tgz", tenantID,
serviceID, deployVersion)` of `NewMarketSlugItem`. -/
def sprintfTGZPath (tenantID serviceID deployVersion : String) : String :=
  "/grdata/build/tenant/" ++ tenantID ++ "/slug/" ++ serviceID ++ "/" ++ deployVersion ++ ".tgz"

/-- `NewMarketSlugItem`: decode the payload, bind the logger of the event id,
derive the destination path. -/
def NewMarketSlugItem (c : Collab σ C L ρ) (input : List UInt8) :
    Except Error (MarketSlugItem L) :=
  match c.Unmarshal input with
  | .error err => .error err
  | .ok msi =>
    let msi := { msi with Logger := c.GetLogger msi.EventID }
    let msi := { msi with
      TGZPath := sprintfTGZPath msi.TenantID msi.ServiceID msi.DeployVersion }
    .ok msi

/-- `CreateUpgradeTaskBody`. -/
def CreateUpgradeTaskBody (i : MarketSlugItem L) : RollingUpgradeTaskBody :=
  { TenantID := i.TenantID
    ServiceID := i.ServiceID
    CurrentDeployVersion := i.DeployVersion
    NewDeployVersion := i.DeployVersion
    EventID := i.EventID }

/-- `UpdateVersionInfo`. -/
def UpdateVersionInfo (c : Collab σ C L ρ) (i : MarketSlugItem L) (vi : VersionInfo ρ)
    (s : St σ L ρ) : Option Error × St σ L ρ :=
  match callGetVersionByDeployVersion c i.DeployVersion i.ServiceID s with
  | (.error err, s) => (some err, s)
  | (.ok version, s) =>
    let version :=
      if vi.DeliveredType ≠ "" then { version with DeliveredType := vi.DeliveredType }
      else version
    let version :=
      if vi.DeliveredPath ≠ "" then { version with DeliveredPath := vi.DeliveredPath }
      else version
    let version :=
      if vi.EventID ≠ "" then { version with EventID := vi.EventID }
      else version
    let version :=
      if vi.FinalStatus ≠ "" then { version with FinalStatus := vi.FinalStatus }
      else version
    match callUpdateModel c version s with
    | (some err, s) => (some err, s)
    | (none, s) => (none, s)

/-- Lines 91 to 116 of `Run`: everything after the acquisition conditional.
Both branches of the conditional fall through to this code.  The `rest` of the
update request `vi` is the zero value `zero` of the fields the literal leaves
out. -/
def RunAfterAcquire (c : Collab σ C L ρ) (zero : ρ) (i : MarketSlugItem L)
    (s : St σ L ρ) : Option Error × St σ L ρ :=
  match callChown c i.TGZPath 200 200 s with
  | (some err, s) =>
    let s := (callRemove c i.TGZPath s).2
    let s := callLoggerError c i.Logger "源码包本地获取失败，安装失败"
      [("step", "callback"), ("status", "failure")] s
    let s := callLogrusErrorf c ("chown slug file error when build service, " ++ err.text) s
    (none, s)
  | (none, s) =>
    let s := callLoggerInfo c i.Logger "应用构建完成"
      [("step", "build-code"), ("status", "success")] s
    let vi : VersionInfo ρ :=
      { DeliveredType := "slug"
        DeliveredPath := i.TGZPath
        EventID := i.EventID
        FinalStatus := "success"
        rest := zero }
    match UpdateVersionInfo c i vi s with
    | (some err, s) =>
      let s := callLogrusErrorf c ("update version info error: " ++ err.text) s
      let s := callLoggerError c i.Logger "更新应用版本信息失败"
        [("step", "callback"), ("status", "failure")] s
      (some err, s)
    | (none, s) =>
      let s := callLoggerInfo c i.Logger "应用同步完成，开始启动应用"
        [("step", "build-exector")] s
      match callUpgradeService c i.TenantName i.ServiceAlias (CreateUpgradeTaskBody i) s with
      | (some err, s) =>
        let s := callLoggerError c i.Logger "启动应用失败，请手动启动"
          [("step", "callback"), ("status", "failure")] s
        let s := callLogrusErrorf c ("rolling update service error, " ++ err.text) s
        (some err, s)
      | (none, s) =>
        let s := callLoggerInfo c i.Logger "应用启动成功" [("step", "build-exector")] s
        (none, s)

/-- `Run`, from the state `s`.  The deferred `sFTPClient.Close()` runs when the
function returns on any path after the client was obtained. -/
def RunFrom (c : Collab σ C L ρ) (zero : ρ) (i : MarketSlugItem L)
    (s : St σ L ρ) : Option Error × St σ L ρ :=
  if i.SlugInfo.FTPHost ≠ "" ∧ i.SlugInfo.FTPPort ≠ "" then
    match callNewSFTPClient c i.SlugInfo.FTPUser i.SlugInfo.FTPPassword
        i.SlugInfo.FTPHost i.SlugInfo.FTPPort s with
    | (.error err, s) =>
      let s := callLoggerError c i.Logger "创建FTP客户端失败"
        [("step", "slug-share"), ("status", "failure")] s
      (some err, s)
    | (.ok sFTPClient, s) =>
      let r :=
        match callDownloadFile c sFTPClient i.SlugInfo.SlugPath i.TGZPath i.Logger s with
        | (some err, s) =>
          let s := callLoggerError c i.Logger "源码包远程FTP获取失败，安装失败"
            [("step", "callback"), ("status", "failure")] s
          let s := callLogrusErrorf c
            ("copy slug file error when build service, " ++ err.text) s
          (none, s)
        | (none, s) => RunAfterAcquire c zero i s
      (r.1, callClose c sFTPClient r.2)
  else
    match callCopyFileWithProgress c i.SlugInfo.SlugPath i.TGZPath i.Logger s with
    | (some err, s) =>
      let s := callLoggerError c i.Logger "源码包本地获取失败，安装失败"
        [("step", "callback"), ("status", "failure")] s
      let s := callLogrusErrorf c
        ("copy slug file error when build service, " ++ err.text) s
      (none, s)
    | (none, s) => RunAfterAcquire c zero i s

/-- `Run`, started in the world `w` with an empty trace. -/
def Run (c : Collab σ C L ρ) (zero : ρ) (i : MarketSlugItem L) (w : σ) :
    Option Error × St σ L ρ :=
  RunFrom c zero i { world := w, trace := [] }

end Program

/-! ## Definitions used to state the properties -/

section Observers

variable {σ C L ρ : Type}

/-- The stored record `stored` overwritten, field by field, with the non-empty
fields of the update request `vi`. -/
def mergedVersion (vi stored : VersionInfo ρ) : VersionInfo ρ :=
  { DeliveredType := if vi.DeliveredType ≠ "" then vi.DeliveredType else stored.DeliveredType
    DeliveredPath := if vi.DeliveredPath ≠ "" then vi.DeliveredPath else stored.DeliveredPath
    EventID := if vi.EventID ≠ "" then vi.EventID else stored.EventID
    FinalStatus := if vi.FinalStatus ≠ "" then vi.FinalStatus else stored.FinalStatus
    rest := stored.rest }

/-- The record `Run` hands to `UpdateModel` when the lookup returned
`stored`. -/
def writtenRecord (i : MarketSlugItem L) (stored : VersionInfo ρ) : VersionInfo ρ :=
  { DeliveredType := "slug"
    DeliveredPath := if i.TGZPath ≠ "" then i.TGZPath else stored.DeliveredPath
    EventID := if i.EventID ≠ "" then i.EventID else stored.EventID
    FinalStatus := "success"
    rest := stored.rest }

/-- The five ways lines 91 to 116 of `Run` can go, with the results the
collaborators returned. -/
inductive TailOutcome (ρ : Type) where
  | chownFailed (e : Error) (er : Option Error)
  | lookupFailed (e : Error)
  | updateFailed (stored : VersionInfo ρ) (e : Error)
  | upgradeFailed (stored : VersionInfo ρ) (e : Error)
  | completed (stored : VersionInfo ρ)

/-- The error returned on each of the five ways. -/
def TailOutcome.ret : TailOutcome ρ → Option Error
  | .chownFailed _ _ => none
  | .lookupFailed e => some e
  | .updateFailed _ e => some e
  | .upgradeFailed _ e => some e
  | .completed _ => none

/-- The calls made, in order, on each of the five ways. -/
def TailOutcome.trace (i : MarketSlugItem L) : TailOutcome ρ → List (Effect L ρ)
  | .chownFailed e er =>
    [Effect.Chown i.TGZPath 200 200 (some e),
     Effect.Remove i.TGZPath er,
     Effect.LoggerError i.Logger "源码包本地获取失败，安装失败" [("step", "callback"), ("status", "failure")],
     Effect.LogrusErrorf ("chown slug file error when build service, " ++ e.text)]
  | .lookupFailed e =>
    [Effect.Chown i.TGZPath 200 200 none,
     Effect.LoggerInfo i.Logger "应用构建完成" [("step", "build-code"), ("status", "success")],
     Effect.GetVersionByDeployVersion i.DeployVersion i.ServiceID (.error e),
     Effect.LogrusErrorf ("update version info error: " ++ e.text),
     Effect.LoggerError i.Logger "更新应用版本信息失败" [("step", "callback"), ("status", "failure")]]
  | .updateFailed stored e =>
    [Effect.Chown i.TGZPath 200 200 none,
     Effect.LoggerInfo i.Logger "应用构建完成" [("step", "build-code"), ("status", "success")],
     Effect.GetVersionByDeployVersion i.DeployVersion i.ServiceID (.ok stored),
     Effect.UpdateModel (writtenRecord i stored) (some e),
     Effect.LogrusErrorf ("update version info error: " ++ e.text),
     Effect.LoggerError i.Logger "更新应用版本信息失败" [("step", "callback"), ("status", "failure")]]
  | .upgradeFailed stored e =>
    [Effect.Chown i.TGZPath 200 200 none,
     Effect.LoggerInfo i.Logger "应用构建完成" [("step", "build-code"), ("status", "success")],
     Effect.GetVersionByDeployVersion i.DeployVersion i.ServiceID (.ok stored),
     Effect.UpdateModel (writtenRecord i stored) none,
     Effect.LoggerInfo i.Logger "应用同步完成，开始启动应用" [("step", "build-exector")],
     Effect.UpgradeService i.TenantName i.ServiceAlias (CreateUpgradeTaskBody i) (some e),
     Effect.LoggerError i.Logger "启动应用失败，请手动启动" [("step", "callback"), ("status", "failure")],
     Effect.LogrusErrorf ("rolling update service error, " ++ e.text)]
  | .completed stored =>
    [Effect.Chown i.TGZPath 200 200 none,
     Effect.LoggerInfo i.Logger "应用构建完成" [("step", "build-code"), ("status", "success")],
     Effect.GetVersionByDeployVersion i.DeployVersion i.ServiceID (.ok stored),
     Effect.UpdateModel (writtenRecord i stored) none,
     Effect.LoggerInfo i.Logger "应用同步完成，开始启动应用" [("step", "build-exector")],
     Effect.UpgradeService i.TenantName i.ServiceAlias (CreateUpgradeTaskBody i) none,
     Effect.LoggerInfo i.Logger "应用启动成功" [("step", "build-exector")]]

/-- The ways `Run` can go: three on the remote-transfer branch, two on the
local-copy branch. -/
inductive Outcome (ρ : Type) where
  | sessionFailed (e : Error)
  | downloadFailed (e : Error)
  | downloaded (o : TailOutcome ρ)
  | copyFailed (e : Error)
  | copied (o : TailOutcome ρ)

/-- Whether the way is on the remote-transfer branch. -/
def Outcome.remote : Outcome ρ → Bool
  | .sessionFailed _ => true
  | .downloadFailed _ => true
  | .downloaded _ => true
  | .copyFailed _ => false
  | .copied _ => false

/-- The error returned by `Run` on each way. -/
def Outcome.ret : Outcome ρ → Option Error
  | .sessionFailed e => some e
  | .downloadFailed _ => none
  | .downloaded o => o.ret
  | .copyFailed _ => none
  | .copied o => o.ret

/-- The calls made by `Run`, in order, on each way. -/
def Outcome.trace (i : MarketSlugItem L) : Outcome ρ → List (Effect L ρ)
  | .sessionFailed e =>
    [Effect.NewSFTPClient i.SlugInfo.FTPUser i.SlugInfo.FTPPassword i.SlugInfo.FTPHost
       i.SlugInfo.FTPPort (some e),
     Effect.LoggerError i.Logger "创建FTP客户端失败" [("step", "slug-share"), ("status", "failure")]]
  | .downloadFailed e =>
    [Effect.NewSFTPClient i.SlugInfo.FTPUser i.SlugInfo.FTPPassword i.SlugInfo.FTPHost
       i.SlugInfo.FTPPort none,
     Effect.DownloadFile i.SlugInfo.SlugPath i.TGZPath i.Logger (some e),
     Effect.LoggerError i.Logger "源码包远程FTP获取失败，安装失败" [("step", "callback"), ("status", "failure")],
     Effect.LogrusErrorf ("copy slug file error when build service, " ++ e.text),
     Effect.Close]
  | .downloaded o =>
    Effect.NewSFTPClient i.SlugInfo.FTPUser i.SlugInfo.FTPPassword i.SlugInfo.FTPHost
       i.SlugInfo.FTPPort none ::
     Effect.DownloadFile i.SlugInfo.SlugPath i.TGZPath i.Logger none :: (o.trace i ++ [Effect.Close])
  | .copyFailed e =>
    [Effect.CopyFileWithProgress i.SlugInfo.SlugPath i.TGZPath i.Logger (some e),
     Effect.LoggerError i.Logger "源码包本地获取失败，安装失败" [("step", "callback"), ("status", "failure")],
     Effect.LogrusErrorf ("copy slug file error when build service, " ++ e.text)]
  | .copied o =>
    Effect.CopyFileWithProgress i.SlugInfo.SlugPath i.TGZPath i.Logger none :: o.trace i

end Observers

/-! ## A scripted world, for concrete runs -/

/-- The results returned by the collaborators of a scripted world. -/
structure Script where
  newSFTPClient : Option Error
  downloadFile : Option Error
  copyFileWithProgress : Option Error
  chown : Option Error
  remove : Option Error
  getVersion : Except Error (VersionInfo Unit)
  updateModel : Option Error
  upgradeService : Option Error

/-- The collaborators that decode payloads with `decode` and answer every call
with the result fixed by the script `k`. -/
def scripted (decode : List UInt8 → Except Error (MarketSlugItem Unit)) (k : Script) :
    Collab Unit Unit Unit Unit :=
  { Unmarshal := decode
    GetLogger := fun _ => ()
    NewSFTPClient := fun _ _ _ _ w =>
      ((match k.newSFTPClient with | some e => .error e | none => .ok ()), w)
    DownloadFile := fun _ _ _ _ w => (k.downloadFile, w)
    Close := fun _ w => w
    CopyFileWithProgress := fun _ _ _ w => (k.copyFileWithProgress, w)
    Chown := fun _ _ _ w => (k.chown, w)
    Remove := fun _ w => (k.remove, w)
    LoggerError := fun _ _ _ w => w
    LoggerInfo := fun _ _ _ w => w
    LogrusErrorf := fun _ w => w
    GetVersionByDeployVersion := fun _ _ w => (k.getVersion, w)
    UpdateModel := fun _ w => (k.updateModel, w)
    UpgradeService := fun _ _ _ w => (k.upgradeService, w) }

/-- A version record as it sits in the store before the task runs. -/
def storedRecord : VersionInfo Unit :=
  { DeliveredType := "", DeliveredPath := "", EventID := "e0", FinalStatus := "", rest := () }

/-- The script in which every call succeeds. -/
def allSucceed : Script :=
  { newSFTPClient := none, downloadFile := none, copyFileWithProgress := none, chown := none,
    remove := none, getVersion := .ok storedRecord, updateModel := none,
    upgradeService := none }

/-- A version record that already has a delivered artifact. -/
def deliveredRecord : VersionInfo Unit :=
  { DeliveredType := "slug", DeliveredPath := "/old/path.tgz", EventID := "e0",
    FinalStatus := "", rest := () }

/-- The script whose store holds `deliveredRecord`. -/
def deliveredStore : Script :=
  { allSucceed with getVersion := .ok deliveredRecord }

/-- An update request carrying only a final status. -/
def statusOnly : VersionInfo Unit :=
  { DeliveredType := "", DeliveredPath := "", EventID := "", FinalStatus := "failure",
    rest := () }

/-- The script in which the remote-transfer session cannot be acquired. -/
def sessionFails : Script :=
  { allSucceed with newSFTPClient := some { text := "dial tcp: connection refused" } }

/-- The script in which the local copy fails. -/
def copyFails : Script :=
  { allSucceed with copyFileWithProgress := some { text := "open /tmp/a.tgz: no such file" } }

/-- The script in which the version-record write fails. -/
def storeWriteFails : Script :=
  { allSucceed with updateModel := some { text := "database is gone" } }

/-- The decoded payload of the end-to-end scenario: no remote-transfer
credentials. -/
def localPayload : MarketSlugItem Unit :=
  { TenantName := "tn1", ServiceAlias := "gr1", Logger := (), EventID := "e1", Operator := "",
    DeployVersion := "v1", TenantID := "t1", ServiceID := "s1", TGZPath := "",
    SlugInfo := { SlugPath := "/tmp/a.tgz", FTPHost := "", FTPPort := "", FTPUser := "",
                  FTPPassword := "" } }

/-- The same payload with remote-transfer host and port. -/
def remotePayload : MarketSlugItem Unit :=
  { localPayload with
    SlugInfo := { SlugPath := "/tmp/a.tgz", FTPHost := "ftp.example", FTPPort := "22",
                  FTPUser := "u", FTPPassword := "p" } }

/-- The local payload sent by another operator under another event id. -/
def otherPayload : MarketSlugItem Unit :=
  { localPayload with Operator := "admin", EventID := "e2", TenantName := "tn2" }

/-- The item built from `localPayload`. -/
def localItem : MarketSlugItem Unit :=
  { localPayload with TGZPath := "/grdata/build/tenant/t1/slug/s1/v1.tgz" }

/-- The item built from `remotePayload`. -/
def remoteItem : MarketSlugItem Unit :=
  { remotePayload with TGZPath := "/grdata/build/tenant/t1/slug/s1/v1.tgz" }

/-- The item built from `otherPayload`. -/
def otherItem : MarketSlugItem Unit :=
  { otherPayload with TGZPath := "/grdata/build/tenant/t1/slug/s1/v1.tgz" }

/-- A payload whose service id contains a path separator. -/
def slashPayloadA : MarketSlugItem Unit :=
  { localPayload with ServiceID := "s1/x", DeployVersion := "v1" }

/-- A payload whose deploy version contains a path separator. -/
def slashPayloadB : MarketSlugItem Unit :=
  { localPayload with ServiceID := "s1", DeployVersion := "x/v1" }

/-- A decoder for the payloads above, selected by the first byte. -/
def decodeDemo (input : List UInt8) : Except Error (MarketSlugItem Unit) :=
  match input with
  | [] => .error { text := "unexpected end of JSON input" }
  | b :: _ =>
    if b = 0 then .ok localPayload
    else if b = 1 then .ok remotePayload
    else if b = 2 then .ok otherPayload
    else if b = 3 then .ok slashPayloadA
    else .ok slashPayloadB

section Behaviour

variable {σ C L ρ : Type}

theorem match_result_id (p : Option Error × St σ L ρ) :
    (match p with
      | (some err, s) => (some err, s)
      | (none, s) => (none, s)) = p := by
  rcases p with ⟨_ | _, _⟩ <;> rfl

theorem UpdateVersionInfo_error (c : Collab σ C L ρ) (i : MarketSlugItem L)
    (vi : VersionInfo ρ) (s : St σ L ρ) (e : Error) (w1 : σ)
    (h : c.GetVersionByDeployVersion i.DeployVersion i.ServiceID s.world = (.error e, w1)) :
    UpdateVersionInfo c i vi s =
      (some e, { world := w1,
                 trace := s.trace ++
                   [Effect.GetVersionByDeployVersion i.DeployVersion i.ServiceID (.error e)] }) := by
  simp only [UpdateVersionInfo, callGetVersionByDeployVersion, h]

theorem UpdateVersionInfo_ok (c : Collab σ C L ρ) (i : MarketSlugItem L)
    (vi : VersionInfo ρ) (s : St σ L ρ) (stored : VersionInfo ρ) (w1 : σ)
    (h : c.GetVersionByDeployVersion i.DeployVersion i.ServiceID s.world = (.ok stored, w1)) :
    UpdateVersionInfo c i vi s =
      ((c.UpdateModel (mergedVersion vi stored) w1).1,
       { world := (c.UpdateModel (mergedVersion vi stored) w1).2,
         trace := s.trace ++
           [Effect.GetVersionByDeployVersion i.DeployVersion i.ServiceID (.ok stored),
            Effect.UpdateModel (mergedVersion vi stored)
              (c.UpdateModel (mergedVersion vi stored) w1).1] }) := by
  cases stored
  by_cases h1 : vi.DeliveredType = "" <;> by_cases h2 : vi.DeliveredPath = "" <;>
    by_cases h3 : vi.EventID = "" <;> by_cases h4 : vi.FinalStatus = "" <;>
    simp only [UpdateVersionInfo, callGetVersionByDeployVersion, h, callUpdateModel,
      mergedVersion, h1, h2, h3, h4, ne_eq, not_true_eq_false, not_false_eq_true, if_true,
      if_false, List.append_assoc, List.singleton_append] <;>
    exact match_result_id _

theorem mergedVersion_run (zero : ρ) (i : MarketSlugItem L) (stored : VersionInfo ρ) :
    mergedVersion
      { DeliveredType := "slug", DeliveredPath := i.TGZPath, EventID := i.EventID,
        FinalStatus := "success", rest := zero } stored = writtenRecord i stored := by
  simp [mergedVersion, writtenRecord]

theorem RunAfterAcquire_behaviour (c : Collab σ C L ρ) (zero : ρ) (i : MarketSlugItem L)
    (s : St σ L ρ) :
    ∃ o : TailOutcome ρ, (RunAfterAcquire c zero i s).1 = o.ret ∧
      (RunAfterAcquire c zero i s).2.trace = s.trace ++ o.trace i ∧
      (o.trace i).head? =
        some (Effect.Chown i.TGZPath 200 200 (c.Chown i.TGZPath 200 200 s.world).1) := by
  simp only [RunAfterAcquire, callChown]
  rcases h1 : c.Chown i.TGZPath 200 200 s.world with ⟨_ | e1, w1⟩
  · simp only []
    rcases h2 : c.GetVersionByDeployVersion i.DeployVersion i.ServiceID
      (callLoggerInfo c i.Logger "应用构建完成" [("step", "build-code"), ("status", "success")]
        { world := w1, trace := s.trace ++ [Effect.Chown i.TGZPath 200 200 none] }).world
      with ⟨e2 | stored, w2⟩
    · rw [UpdateVersionInfo_error c i _ _ e2 w2 h2]
      exact ⟨.lookupFailed e2, rfl,
        by simp [TailOutcome.trace, callLoggerInfo, callLoggerError, callLogrusErrorf],
        by simp [TailOutcome.trace]⟩
    · rw [UpdateVersionInfo_ok c i _ _ stored w2 h2, mergedVersion_run]
      rcases h3 : c.UpdateModel (writtenRecord i stored) w2 with ⟨_ | e3, w3⟩
      · simp only [callUpgradeService]
        rcases h4 : c.UpgradeService i.TenantName i.ServiceAlias (CreateUpgradeTaskBody i)
          (callLoggerInfo c i.Logger "应用同步完成，开始启动应用" [("step", "build-exector")]
            { world := w3,
              trace := (callLoggerInfo c i.Logger "应用构建完成"
                  [("step", "build-code"), ("status", "success")]
                  { world := w1,
                    trace := s.trace ++ [Effect.Chown i.TGZPath 200 200 none] }).trace ++
                [Effect.GetVersionByDeployVersion i.DeployVersion i.ServiceID (.ok stored),
                 Effect.UpdateModel (writtenRecord i stored) none] }).world
          with ⟨_ | e4, w4⟩
        · exact ⟨.completed stored, rfl,
            by simp [TailOutcome.trace, callLoggerInfo, callLoggerError, callLogrusErrorf],
        by simp [TailOutcome.trace]⟩
        · exact ⟨.upgradeFailed stored e4, rfl,
            by simp [TailOutcome.trace, callLoggerInfo, callLoggerError, callLogrusErrorf],
        by simp [TailOutcome.trace]⟩
      · exact ⟨.updateFailed stored e3, rfl,
          by simp [TailOutcome.trace, callLoggerInfo, callLoggerError, callLogrusErrorf],
        by simp [TailOutcome.trace]⟩
  · exact ⟨.chownFailed e1 (c.Remove i.TGZPath w1).1, rfl,
      by simp [TailOutcome.trace, callRemove, callLoggerInfo, callLoggerError,
        callLogrusErrorf],
      by simp [TailOutcome.trace]⟩

theorem Run_behaviour (c : Collab σ C L ρ) (zero : ρ) (i : MarketSlugItem L) (w : σ) :
    ∃ o : Outcome ρ,
      (o.remote = true ↔ (i.SlugInfo.FTPHost ≠ "" ∧ i.SlugInfo.FTPPort ≠ ""))
      ∧ (Run c zero i w).1 = o.ret ∧ (Run c zero i w).2.trace = o.trace i := by
  by_cases h : i.SlugInfo.FTPHost ≠ "" ∧ i.SlugInfo.FTPPort ≠ ""
  · simp only [Run, RunFrom, if_pos h, callNewSFTPClient]
    rcases h1 : c.NewSFTPClient i.SlugInfo.FTPUser i.SlugInfo.FTPPassword i.SlugInfo.FTPHost
      i.SlugInfo.FTPPort w with ⟨e1 | client, w1⟩
    · exact ⟨.sessionFailed e1, by simp [Outcome.remote, h], rfl,
        by simp [Outcome.trace, callLoggerError]⟩
    · simp only [callDownloadFile]
      rcases h2 : c.DownloadFile client i.SlugInfo.SlugPath i.TGZPath i.Logger w1
        with ⟨_ | e2, w2⟩
      · obtain ⟨o, hr, ht, -⟩ := RunAfterAcquire_behaviour c zero i
          { world := w2,
            trace := [Effect.NewSFTPClient i.SlugInfo.FTPUser i.SlugInfo.FTPPassword
              i.SlugInfo.FTPHost i.SlugInfo.FTPPort none,
              Effect.DownloadFile i.SlugInfo.SlugPath i.TGZPath i.Logger none] }
        exact ⟨.downloaded o, by simp [Outcome.remote, h], by simp [Outcome.ret, hr],
          by simp [Outcome.trace, callClose, ht]⟩
      · exact ⟨.downloadFailed e2, by simp [Outcome.remote, h], rfl,
          by simp [Outcome.trace, callClose, callLoggerError, callLogrusErrorf]⟩
  · simp only [Run, RunFrom, if_neg h, callCopyFileWithProgress]
    rcases h1 : c.CopyFileWithProgress i.SlugInfo.SlugPath i.TGZPath i.Logger w
      with ⟨_ | e1, w1⟩
    · obtain ⟨o, hr, ht, -⟩ := RunAfterAcquire_behaviour c zero i
        { world := w1,
          trace := [Effect.CopyFileWithProgress i.SlugInfo.SlugPath i.TGZPath i.Logger none] }
      exact ⟨.copied o, by simp [Outcome.remote, h], by simp [Outcome.ret, hr],
        by simp [Outcome.trace, ht]⟩
    · exact ⟨.copyFailed e1, by simp [Outcome.remote, h], rfl,
        by simp [Outcome.trace, callLoggerError, callLogrusErrorf]⟩

end Behaviour

/-! ## The destination path -/

section Path

variable {σ C L ρ : Type}

theorem NewMarketSlugItem_ok (c : Collab σ C L ρ) (input : List UInt8)
    (i : MarketSlugItem L) (h : NewMarketSlugItem c input = .ok i) :
    ∃ msi, c.Unmarshal input = .ok msi ∧
      i = { msi with
            Logger := c.GetLogger msi.EventID
            TGZPath := sprintfTGZPath msi.TenantID msi.ServiceID msi.DeployVersion } := by
  rcases hu : c.Unmarshal input with e | msi
  · simp [NewMarketSlugItem, hu] at h
  · simp only [NewMarketSlugItem, hu, Except.ok.injEq] at h
    exact ⟨msi, rfl, h.symm⟩

theorem TGZPath_of_NewMarketSlugItem (c : Collab σ C L ρ) (input : List UInt8)
    (i : MarketSlugItem L) (h : NewMarketSlugItem c input = .ok i) :
    i.TGZPath = sprintfTGZPath i.TenantID i.ServiceID i.DeployVersion := by
  obtain ⟨msi, -, rfl⟩ := NewMarketSlugItem_ok c input i h
  rfl

theorem append_cons_unique {α : Type} (a : α) :
    ∀ (l₁ l₂ r₁ r₂ : List α), a ∉ l₁ → a ∉ l₂ → l₁ ++ a :: r₁ = l₂ ++ a :: r₂ →
      l₁ = l₂ ∧ r₁ = r₂ := by
  intro l₁
  induction l₁ with
  | nil =>
    intro l₂ r₁ r₂ _ h₂ h
    cases l₂ with
    | nil => simpa using h
    | cons b l₂ =>
      simp only [List.nil_append, List.cons_append, List.cons.injEq] at h
      exact absurd (h.1 ▸ List.mem_cons_self _ _) h₂
  | cons x l₁ ih =>
    intro l₂ r₁ r₂ h₁ h₂ h
    cases l₂ with
    | nil =>
      simp only [List.nil_append, List.cons_append, List.cons.injEq] at h
      exact absurd (h.1 ▸ List.mem_cons_self _ _) h₁
    | cons b l₂ =>
      simp only [List.cons_append, List.cons.injEq] at h
      have h₁' : a ∉ l₁ := fun hm => h₁ (List.mem_cons_of_mem _ hm)
      have h₂' : a ∉ l₂ := fun hm => h₂ (List.mem_cons_of_mem _ hm)
      obtain ⟨hl, hr⟩ := ih l₂ r₁ r₂ h₁' h₂' h.2
      exact ⟨by rw [h.1, hl], hr⟩

theorem sprintfTGZPath_inj (t s d t' s' d' : String)
    (ht : '/' ∉ t.toList) (hs : '/' ∉ s.toList)
    (ht' : '/' ∉ t'.toList) (hs' : '/' ∉ s'.toList)
    (h : sprintfTGZPath t s d = sprintfTGZPath t' s' d') :
    t = t' ∧ s = s' ∧ d = d' := by
  have h1 := congrArg String.data h
  simp only [sprintfTGZPath, String.data_append, List.append_assoc] at h1
  have h2 := List.append_cancel_left h1
  simp only [List.cons_append, List.nil_append] at h2
  obtain ⟨hta, h3⟩ := append_cons_unique '/' _ _ _ _ ht ht' h2
  have h4 : s.data ++ '/' :: (d.data ++ ['.', 't', 'g', 'z']) =
      s'.data ++ '/' :: (d'.data ++ ['.', 't', 'g', 'z']) := by
    simpa only [List.cons.injEq, true_and] using h3
  obtain ⟨hsa, h5⟩ := append_cons_unique '/' _ _ _ _ hs hs' h4
  have h6 := List.append_cancel_right h5
  exact ⟨String.ext hta, String.ext hsa, String.ext h6⟩

/-- C3: for every payload that decodes, `NewMarketSlugItem` succeeds and returns
the decoded item with its logger bound and with `TGZPath` equal to
"/grdata/build/tenant/" ++ tenant id ++ "/slug/" ++ service id ++ "/" ++ deploy
version ++ ".tgz"; any other payload that decodes to the same tenant id, service
id and deploy version gets the same `TGZPath`, whatever its other fields. -/
theorem NewMarketSlugItem_TGZPath (c : Collab σ C L ρ) (input : List UInt8)
    (msi : MarketSlugItem L) (h : c.Unmarshal input = .ok msi) :
    NewMarketSlugItem c input =
      .ok { msi with
            Logger := c.GetLogger msi.EventID
            TGZPath := "/grdata/build/tenant/" ++ msi.TenantID ++ "/slug/" ++ msi.ServiceID
              ++ "/" ++ msi.DeployVersion ++ ".tgz" }
    ∧ ∀ (input₂ : List UInt8) (msi₂ : MarketSlugItem L), c.Unmarshal input₂ = .ok msi₂ →
        msi₂.TenantID = msi.TenantID → msi₂.ServiceID = msi.ServiceID →
        msi₂.DeployVersion = msi.DeployVersion →
        ∃ i₂, NewMarketSlugItem c input₂ = .ok i₂ ∧
          i₂.TGZPath = "/grdata/build/tenant/" ++ msi.TenantID ++ "/slug/" ++ msi.ServiceID
              ++ "/" ++ msi.DeployVersion ++ ".tgz" := by
  refine ⟨by simp only [NewMarketSlugItem, h, sprintfTGZPath], ?_⟩
  intro input₂ msi₂ h₂ ht hs hd
  refine ⟨{ msi₂ with
            Logger := c.GetLogger msi₂.EventID
            TGZPath := sprintfTGZPath msi₂.TenantID msi₂.ServiceID msi₂.DeployVersion },
    by simp only [NewMarketSlugItem, h₂], ?_⟩
  simp only [sprintfTGZPath, ht, hs, hd]

/-- C3, on the payloads of two operators: the first decodes, and the theorem
gives its item and the path shared with every payload of the same triple. -/
theorem NewMarketSlugItem_TGZPath_witness :
    (scripted decodeDemo allSucceed).Unmarshal [0] = .ok localPayload
    ∧ (NewMarketSlugItem (scripted decodeDemo allSucceed) [0] =
        .ok { localPayload with
              Logger := ()
              TGZPath := "/grdata/build/tenant/" ++ "t1" ++ "/slug/" ++ "s1" ++ "/" ++ "v1"
                ++ ".tgz" }
      ∧ ∀ (input₂ : List UInt8) (msi₂ : MarketSlugItem Unit),
          (scripted decodeDemo allSucceed).Unmarshal input₂ = .ok msi₂ →
          msi₂.TenantID = "t1" → msi₂.ServiceID = "s1" → msi₂.DeployVersion = "v1" →
          ∃ i₂, NewMarketSlugItem (scripted decodeDemo allSucceed) input₂ = .ok i₂ ∧
            i₂.TGZPath = "/grdata/build/tenant/" ++ "t1" ++ "/slug/" ++ "s1" ++ "/" ++ "v1"
              ++ ".tgz") :=
  ⟨rfl, NewMarketSlugItem_TGZPath (scripted decodeDemo allSucceed) [0] localPayload rfl⟩

/-- C10, as stated, fails: a service id or deploy version containing "/" lets two
different triples share one destination path. -/
theorem TGZPath_not_unique :
    (NewMarketSlugItem (scripted decodeDemo allSucceed) [3]).map (fun i => i.TGZPath)
      = .ok "/grdata/build/tenant/t1/slug/s1/x/v1.tgz"
    ∧ (NewMarketSlugItem (scripted decodeDemo allSucceed) [4]).map (fun i => i.TGZPath)
      = .ok "/grdata/build/tenant/t1/slug/s1/x/v1.tgz"
    ∧ (NewMarketSlugItem (scripted decodeDemo allSucceed) [3]).map
        (fun i => (i.TenantID, i.ServiceID, i.DeployVersion)) = .ok ("t1", "s1/x", "v1")
    ∧ (NewMarketSlugItem (scripted decodeDemo allSucceed) [4]).map
        (fun i => (i.TenantID, i.ServiceID, i.DeployVersion)) = .ok ("t1", "s1", "x/v1")
    ∧ ("t1", "s1/x", "v1") ≠ ("t1", "s1", "x/v1") := by
  refine ⟨?_, ?_, rfl, rfl, by decide⟩
  · show Except.ok (sprintfTGZPath "t1" "s1/x" "v1") = _
    exact congrArg Except.ok (by decide)
  · show Except.ok (sprintfTGZPath "t1" "s1" "x/v1") = _
    exact congrArg Except.ok (by decide)

/-- C10, amended: among payloads whose tenant id and service id contain no "/",
the destination path computed by `NewMarketSlugItem` determines the triple
(tenant id, service id, deploy version). -/
theorem TGZPath_unique_without_slash (c : Collab σ C L ρ) (input₁ input₂ : List UInt8)
    (i₁ i₂ : MarketSlugItem L)
    (h₁ : NewMarketSlugItem c input₁ = .ok i₁) (h₂ : NewMarketSlugItem c input₂ = .ok i₂)
    (ht₁ : '/' ∉ i₁.TenantID.toList) (hs₁ : '/' ∉ i₁.ServiceID.toList)
    (ht₂ : '/' ∉ i₂.TenantID.toList) (hs₂ : '/' ∉ i₂.ServiceID.toList)
    (h : i₁.TGZPath = i₂.TGZPath) :
    i₁.TenantID = i₂.TenantID ∧ i₁.ServiceID = i₂.ServiceID
      ∧ i₁.DeployVersion = i₂.DeployVersion := by
  rw [TGZPath_of_NewMarketSlugItem c input₁ i₁ h₁,
    TGZPath_of_NewMarketSlugItem c input₂ i₂ h₂] at h
  exact sprintfTGZPath_inj _ _ _ _ _ _ ht₁ hs₁ ht₂ hs₂ h

/-- C10, amended, on the payloads of two operators for the same service and
version. -/
theorem TGZPath_unique_without_slash_witness :
    NewMarketSlugItem (scripted decodeDemo allSucceed) [0] = .ok localItem
    ∧ NewMarketSlugItem (scripted decodeDemo allSucceed) [2] = .ok otherItem
    ∧ localItem.TGZPath = otherItem.TGZPath
    ∧ (localItem.TenantID = otherItem.TenantID ∧ localItem.ServiceID = otherItem.ServiceID
        ∧ localItem.DeployVersion = otherItem.DeployVersion) :=
  ⟨rfl, rfl, rfl,
   TGZPath_unique_without_slash (scripted decodeDemo allSucceed) [0] [2]
     localItem otherItem rfl rfl (by decide) (by decide) (by decide) (by decide) rfl⟩

end Path

/-! ## Error propagation of `Run` -/

section Errors

variable {σ C L ρ : Type}

/-- C1, as stated, fails: when the remote-transfer session cannot be acquired,
`Run` returns that error, although neither the version-record update nor the
deployment trigger was even called. -/
theorem Run_session_failure_returns_error :
    (Run (scripted decodeDemo sessionFails) () remoteItem ()).1
      = some { text := "dial tcp: connection refused" }
    ∧ (Run (scripted decodeDemo sessionFails) () remoteItem ()).2.trace =
      [Effect.NewSFTPClient "u" "p" "ftp.example" "22"
         (some { text := "dial tcp: connection refused" }),
       Effect.LoggerError () "创建FTP客户端失败" [("step", "slug-share"), ("status", "failure")]] :=
  ⟨rfl, rfl⟩

/-- C1, amended: `Run` returns the error `e` exactly when acquiring the
remote-transfer session failed with `e`, or the version-record lookup or write
failed with `e`, or the deployment trigger failed with `e`; a failed remote
download, a failed local copy and a failed ownership fix-up make `Run` return
nil. -/
theorem Run_error_iff (c : Collab σ C L ρ) (zero : ρ) (i : MarketSlugItem L) (w : σ) :
    (∀ e : Error, (Run c zero i w).1 = some e ↔
      (Effect.NewSFTPClient i.SlugInfo.FTPUser i.SlugInfo.FTPPassword i.SlugInfo.FTPHost
          i.SlugInfo.FTPPort (some e) ∈ (Run c zero i w).2.trace
        ∨ Effect.GetVersionByDeployVersion i.DeployVersion i.ServiceID (.error e)
            ∈ (Run c zero i w).2.trace
        ∨ (∃ v, Effect.UpdateModel v (some e) ∈ (Run c zero i w).2.trace)
        ∨ Effect.UpgradeService i.TenantName i.ServiceAlias (CreateUpgradeTaskBody i) (some e)
            ∈ (Run c zero i w).2.trace))
    ∧ ((∃ src dst l e, Effect.DownloadFile src dst l (some e) ∈ (Run c zero i w).2.trace) →
        (Run c zero i w).1 = none)
    ∧ ((∃ src dst l e, Effect.CopyFileWithProgress src dst l (some e) ∈ (Run c zero i w).2.trace) →
        (Run c zero i w).1 = none)
    ∧ ((∃ name uid gid e, Effect.Chown name uid gid (some e) ∈ (Run c zero i w).2.trace) →
        (Run c zero i w).1 = none) := by
  obtain ⟨o, -, hr, ht⟩ := Run_behaviour c zero i w
  rw [hr, ht]
  rcases o with e₀ | e₀ | (⟨e₀, er⟩ | e₀ | ⟨st, e₀⟩ | ⟨st, e₀⟩ | st) | e₀
    | (⟨e₀, er⟩ | e₀ | ⟨st, e₀⟩ | ⟨st, e₀⟩ | st) <;>
    simp [Outcome.ret, Outcome.trace, TailOutcome.ret, TailOutcome.trace, eq_comm]

/-- C6: if the version-record lookup or the version-record write returns the
error `e`, then `Run` returns `e`, records the error event tagged
step=callback, status=failure, and never calls the deployment trigger; after a
failed lookup `UpdateModel` is never called. -/
theorem Run_version_store_failure (c : Collab σ C L ρ) (zero : ρ) (i : MarketSlugItem L)
    (w : σ) (e : Error)
    (h : (∃ dv sid, Effect.GetVersionByDeployVersion dv sid (.error e)
            ∈ (Run c zero i w).2.trace)
          ∨ (∃ v, Effect.UpdateModel v (some e) ∈ (Run c zero i w).2.trace)) :
    (Run c zero i w).1 = some e
    ∧ Effect.LoggerError i.Logger "更新应用版本信息失败" [("step", "callback"), ("status", "failure")]
        ∈ (Run c zero i w).2.trace
    ∧ (∀ tn sa b r, Effect.UpgradeService tn sa b r ∉ (Run c zero i w).2.trace)
    ∧ (∀ dv sid e₁, Effect.GetVersionByDeployVersion dv sid (.error e₁)
          ∈ (Run c zero i w).2.trace →
        ∀ v r, Effect.UpdateModel v r ∉ (Run c zero i w).2.trace) := by
  obtain ⟨o, -, hr, ht⟩ := Run_behaviour c zero i w
  rw [ht] at h
  rw [hr, ht]
  rcases o with e₀ | e₀ | (⟨e₀, er⟩ | e₀ | ⟨st, e₀⟩ | ⟨st, e₀⟩ | st) | e₀
    | (⟨e₀, er⟩ | e₀ | ⟨st, e₀⟩ | ⟨st, e₀⟩ | st) <;>
    simp [Outcome.ret, Outcome.trace, TailOutcome.ret, TailOutcome.trace] at h ⊢ <;>
    exact h.symm

/-- C6, on the scenario payload with a store whose write fails: the write is in
the trace with its error, and `Run` returns that error. -/
theorem Run_version_store_failure_witness :
    Effect.UpdateModel
        { storedRecord with
          DeliveredType := "slug", DeliveredPath := "/grdata/build/tenant/t1/slug/s1/v1.tgz",
          EventID := "e1", FinalStatus := "success" }
        (some { text := "database is gone" })
      ∈ (Run (scripted decodeDemo storeWriteFails) () localItem ()).2.trace
    ∧ (Run (scripted decodeDemo storeWriteFails) () localItem ()).1
        = some { text := "database is gone" } :=
  have hm : Effect.UpdateModel
        { storedRecord with
          DeliveredType := "slug", DeliveredPath := "/grdata/build/tenant/t1/slug/s1/v1.tgz",
          EventID := "e1", FinalStatus := "success" }
        (some { text := "database is gone" })
      ∈ (Run (scripted decodeDemo storeWriteFails) () localItem ()).2.trace :=
    List.Mem.tail _ (List.Mem.tail _ (List.Mem.tail _ (List.Mem.tail _ (List.Mem.head _))))
  ⟨hm, (Run_version_store_failure (scripted decodeDemo storeWriteFails) () localItem ()
    { text := "database is gone" } (Or.inr ⟨_, hm⟩)).1⟩

/-- C5: on the local-copy branch, if `CopyFileWithProgress` returns an error then
`Run` returns nil and records the error event tagged step=callback,
status=failure; the version record is neither read nor written, no ownership
fix-up is attempted and the deployment trigger is not called. -/
theorem Run_local_copy_failure (c : Collab σ C L ρ) (zero : ρ) (i : MarketSlugItem L)
    (w : σ) (err : Error)
    (hsel : ¬ (i.SlugInfo.FTPHost ≠ "" ∧ i.SlugInfo.FTPPort ≠ ""))
    (hcopy : (c.CopyFileWithProgress i.SlugInfo.SlugPath i.TGZPath i.Logger w).1 = some err) :
    (Run c zero i w).1 = none
    ∧ Effect.LoggerError i.Logger "源码包本地获取失败，安装失败" [("step", "callback"), ("status", "failure")]
        ∈ (Run c zero i w).2.trace
    ∧ (∀ dv sid r, Effect.GetVersionByDeployVersion dv sid r ∉ (Run c zero i w).2.trace)
    ∧ (∀ v r, Effect.UpdateModel v r ∉ (Run c zero i w).2.trace)
    ∧ (∀ name uid gid r, Effect.Chown name uid gid r ∉ (Run c zero i w).2.trace)
    ∧ (∀ tn sa b r, Effect.UpgradeService tn sa b r ∉ (Run c zero i w).2.trace) := by
  simp only [Run, RunFrom, if_neg hsel, callCopyFileWithProgress, hcopy]
  simp [callLoggerError, callLogrusErrorf]

/-- C5, on the scenario payload when the local source is absent. -/
theorem Run_local_copy_failure_witness :
    ¬ (localItem.SlugInfo.FTPHost ≠ "" ∧ localItem.SlugInfo.FTPPort ≠ "")
    ∧ ((scripted decodeDemo copyFails).CopyFileWithProgress localItem.SlugInfo.SlugPath
          localItem.TGZPath localItem.Logger ()).1
        = some { text := "open /tmp/a.tgz: no such file" }
    ∧ (Run (scripted decodeDemo copyFails) () localItem ()).1 = none
    ∧ Effect.LoggerError () "源码包本地获取失败，安装失败"
          [("step", "callback"), ("status", "failure")]
        ∈ (Run (scripted decodeDemo copyFails) () localItem ()).2.trace :=
  have h := Run_local_copy_failure (scripted decodeDemo copyFails) () localItem ()
    { text := "open /tmp/a.tgz: no such file" } (by decide) rfl
  ⟨by decide, rfl, h.1, h.2.1⟩

end Errors

/-! ## The acquisition branch, the partial update and the successful run -/

section Success

variable {σ C L ρ : Type}

/-- C4: when the lookup returns the record `stored`, `UpdateVersionInfo` hands to
`UpdateModel` a record whose delivered type, delivered path, event id and final
status are those of the request `vi` where non-empty and those of `stored`
otherwise, with all other fields as in `stored`, and returns what `UpdateModel`
returns; a request carrying only a final status leaves delivered type, delivered
path and event id as stored. -/
theorem UpdateVersionInfo_update_by_presence (c : Collab σ C L ρ) (i : MarketSlugItem L)
    (vi : VersionInfo ρ) (s : St σ L ρ) (stored : VersionInfo ρ) (w₁ : σ)
    (h : c.GetVersionByDeployVersion i.DeployVersion i.ServiceID s.world = (.ok stored, w₁)) :
    ∃ v, (UpdateVersionInfo c i vi s).2.trace = s.trace ++
          [Effect.GetVersionByDeployVersion i.DeployVersion i.ServiceID (.ok stored),
           Effect.UpdateModel v (c.UpdateModel v w₁).1]
      ∧ (UpdateVersionInfo c i vi s).1 = (c.UpdateModel v w₁).1
      ∧ v.DeliveredType =
          (if vi.DeliveredType ≠ "" then vi.DeliveredType else stored.DeliveredType)
      ∧ v.DeliveredPath =
          (if vi.DeliveredPath ≠ "" then vi.DeliveredPath else stored.DeliveredPath)
      ∧ v.EventID = (if vi.EventID ≠ "" then vi.EventID else stored.EventID)
      ∧ v.FinalStatus = (if vi.FinalStatus ≠ "" then vi.FinalStatus else stored.FinalStatus)
      ∧ v.rest = stored.rest
      ∧ (vi.DeliveredType = "" → vi.DeliveredPath = "" → vi.EventID = "" →
          v.DeliveredType = stored.DeliveredType ∧ v.DeliveredPath = stored.DeliveredPath
            ∧ v.EventID = stored.EventID) := by
  refine ⟨mergedVersion vi stored, ?_, ?_, rfl, rfl, rfl, rfl, rfl, ?_⟩
  · rw [UpdateVersionInfo_ok c i vi s stored w₁ h]
  · rw [UpdateVersionInfo_ok c i vi s stored w₁ h]
  · intro h₁ h₂ h₃
    simp [mergedVersion, h₁, h₂, h₃]

/-- C4, on a request carrying only a final status, against a record that
already has a delivered type and path. -/
theorem UpdateVersionInfo_update_by_presence_witness :
    (scripted decodeDemo deliveredStore).GetVersionByDeployVersion localItem.DeployVersion
        localItem.ServiceID () = (.ok deliveredRecord, ())
    ∧ ∃ v : VersionInfo Unit,
        (UpdateVersionInfo (scripted decodeDemo deliveredStore) localItem statusOnly
            { world := (), trace := [] }).2.trace =
          [Effect.GetVersionByDeployVersion "v1" "s1" (.ok deliveredRecord),
           Effect.UpdateModel v none]
        ∧ v = { DeliveredType := "slug", DeliveredPath := "/old/path.tgz", EventID := "e0",
                FinalStatus := "failure", rest := () } := by
  refine ⟨rfl, ?_⟩
  obtain ⟨v, ht, -, h₁, h₂, h₃, h₄, h₅, -⟩ :=
    UpdateVersionInfo_update_by_presence (scripted decodeDemo deliveredStore) localItem statusOnly
      { world := (), trace := [] } deliveredRecord () rfl
  refine ⟨v, ht, ?_⟩
  cases v
  simp [statusOnly, deliveredRecord] at h₁ h₂ h₃ h₄
  simp [h₁, h₂, h₃, h₄]

end Success

end Rainbond
